import Mathlib

/-!
Verification of the EC2 instance manager's translation, query/filter and
lifecycle contract, as a shallow embedding of `app/services.py` and
`app/routers/ec2.py`.

Provider-native records (`AwsInstance`) keep the optional shape of the raw
AWS `describe_instances` response: every field that Python accesses with
`d[key]` (raising `KeyError` when absent) or `d.get(key, default)` is an
`Option`.  Python exceptions are modelled with `Except`: an uncaught
`KeyError`/`IndexError` and a raised `HTTPException` are the constructors of
`ServiceError`.  The boto3 client is a record of functions over an abstract
provider state `σ`; each service operation also returns the list of provider
calls it issued, so that call-count properties can be stated.
-/

/-- Tag entry of a provider record: `{'Key': ..., 'Value': ...}`. -/
structure Tag where
  Key : String
  Value : String
deriving DecidableEq

/-- Nested `State` sub-structure of a provider record; `Name` is absent when
the key is missing. -/
structure AwsState where
  Name : Option String
deriving DecidableEq

/-- Raw provider instance record, the argument of
`EC2Service._convert_to_ec2_instance`.  `none` models an absent dict key.
`LaunchTime` is an opaque timestamp, modelled as `Nat`. -/
structure AwsInstance where
  InstanceId : Option String
  InstanceType : Option String
  State : Option AwsState
  PublicIpAddress : Option String
  PrivateIpAddress : Option String
  Tags : Option (List Tag)
  LaunchTime : Option Nat
deriving DecidableEq

/-- Canonical `EC2Instance` pydantic model (`app/models.py`).  The four
`Optional[str]` fields keep their `Option` type so that "empty string" and
"null/absent" stay distinguishable. -/
structure EC2Instance where
  instance_id : String
  instance_type : String
  state : String
  public_ip : Option String
  private_ip : Option String
  name : Option String
  environment : Option String
  launch_time : Nat
deriving DecidableEq

/-- botocore `ClientError`, reduced to its message. -/
structure ClientError where
  msg : String
deriving DecidableEq

/-- Errors a service operation can surface: a raised `HTTPException`
(status, detail), an uncaught Python `KeyError` (carrying the missing key),
or an uncaught `IndexError`. -/
inductive ServiceError where
  | httpException (status : Nat) (detail : String)
  | keyError (key : String)
  | indexError
deriving DecidableEq

/-- True exactly for errors surfaced as a raised `HTTPException`; an
uncaught `KeyError`/`IndexError` is not one (FastAPI turns it into a generic
internal server error). -/
def ServiceError.isHTTPException : ServiceError → Bool
  | .httpException _ _ => true
  | _ => false

/-- First-match lookup in a Python-dict association list (string values). -/
def lookupStr : List (String × String) → String → Option String
  | [], _ => none
  | (k', v) :: rest, k => if k' = k then some v else lookupStr rest k

/-- Python `d[k] = v` on an association list: update the entry in place if
the key is present, append otherwise (insertion order preserved). -/
def dictSet : List (String × String) → String → String → List (String × String)
  | [], k, v => [(k, v)]
  | (k', v') :: rest, k, v =>
      if k' = k then (k', v) :: rest else (k', v') :: dictSet rest k v

/-- The dict comprehension
`{tag['Key']: tag['Value'] for tag in aws_instance.get('Tags', [])}`:
entries are inserted in list order, so a later duplicate key overwrites an
earlier one. -/
def tags_dict (ts : List Tag) : List (String × String) :=
  ts.foldl (fun d t => dictSet d t.Key t.Value) []

/-- Python `d.get(k, default)` on the tag dict. -/
def dict_get (d : List (String × String)) (k dflt : String) : String :=
  (lookupStr d k).getD dflt

/-- `EC2Service._convert_to_ec2_instance` (`app/services.py`).  Required
fields are read with `d[key]`, so a missing key raises `KeyError` (the
keyword arguments are evaluated in source order, which fixes which key is
reported first); optional fields are read with `d.get(key, '')` /
`tags.get(key, '')`. -/
def _convert_to_ec2_instance (a : AwsInstance) : Except ServiceError EC2Instance :=
  let tags := tags_dict (a.Tags.getD [])
  match a.InstanceId with
  | none => .error (.keyError "InstanceId")
  | some iid =>
    match a.InstanceType with
    | none => .error (.keyError "InstanceType")
    | some ity =>
      match a.State with
      | none => .error (.keyError "State")
      | some st =>
        match st.Name with
        | none => .error (.keyError "Name")
        | some stName =>
          match a.LaunchTime with
          | none => .error (.keyError "LaunchTime")
          | some lt =>
            .ok { instance_id := iid
                  instance_type := ity
                  state := stName
                  public_ip := some (a.PublicIpAddress.getD "")
                  private_ip := some (a.PrivateIpAddress.getD "")
                  name := some (dict_get tags "Name" "")
                  environment := some (dict_get tags "Environment" "")
                  launch_time := lt }

/-- One reservation of a `describe_instances` response. -/
structure Reservation where
  Instances : List AwsInstance
deriving DecidableEq

/-- Response of boto3 `describe_instances`. -/
structure DescribeResponse where
  Reservations : List Reservation
deriving DecidableEq

/-- The boto3 EC2 client, as a record of functions over an abstract provider
state `σ`.  `describe_instances_all` is the no-argument call used by
`list_instances`; `describe_instances` is the `InstanceIds=[...]` form.  The
mutating calls return the provider state that subsequent describes see. -/
structure Ec2Client (σ : Type) where
  describe_instances_all : σ → Except ClientError DescribeResponse
  describe_instances : σ → List String → Except ClientError DescribeResponse
  start_instances : σ → List String → Except ClientError σ
  stop_instances : σ → List String → Except ClientError σ
  terminate_instances : σ → List String → Except ClientError σ

/-- One call issued against the provider client, recorded in a trace. -/
inductive Call where
  | describeAll
  | describe (ids : List String)
  | start (ids : List String)
  | stop (ids : List String)
  | terminate (ids : List String)
deriving DecidableEq

/-- A call is mutating when it is one of start/stop/terminate (describe
calls are read-only). -/
def Call.isMutating : Call → Bool
  | .start _ => true
  | .stop _ => true
  | .terminate _ => true
  | _ => false

/-- Detail string of the `HTTPException` raised by `get_instance` on an
empty `Reservations` list (the spec's `InstanceNotFound` kind). -/
def instanceNotFound (instance_id : String) : ServiceError :=
  .httpException 404 ("Instance " ++ instance_id ++ " not found")

/-- The `HTTPException` raised by `get_instance` when the provider call
fails with `ClientError` (the spec's `ProviderQueryFailed` kind on the get
path). -/
def providerQueryFailedGet (instance_id : String) (e : ClientError) : ServiceError :=
  .httpException 404 ("Failed to get instance " ++ instance_id ++ ": " ++ e.msg)

/-- The `HTTPException` raised by `list_instances` when the provider call
fails with `ClientError` (the spec's `ProviderQueryFailed` kind on the list
path). -/
def providerQueryFailedList (e : ClientError) : ServiceError :=
  .httpException 400 ("Failed to list instances: " ++ e.msg)

/-- `EC2Service.get_instance`: describe restricted to the id; raise 404
when `Reservations` is falsy (empty); otherwise translate
`Reservations[0]['Instances'][0]` (an empty inner list is an uncaught
`IndexError`).  A `ClientError` from the provider becomes the 404
`HTTPException`; the `HTTPException`s and `KeyError`s raised inside the
`try` are not `ClientError`s, so they propagate unchanged.  The second
component is the trace of provider calls issued. -/
def get_instance {σ : Type} (c : Ec2Client σ) (s : σ) (instance_id : String) :
    Except ServiceError EC2Instance × List Call :=
  ( match c.describe_instances s [instance_id] with
    | .error e => .error (providerQueryFailedGet instance_id e)
    | .ok response =>
      match response.Reservations with
      | [] => .error (instanceNotFound instance_id)
      | r :: _ =>
        match r.Instances with
        | [] => .error .indexError
        | a :: _ => _convert_to_ec2_instance a,
    [Call.describe [instance_id]] )

/-- Translation of a list of records in order, aborting at the first record
whose translation raises — the body of `list_instances`'s nested `for`
loops, which append one converted instance at a time. -/
def convertInstances : List AwsInstance → Except ServiceError (List EC2Instance)
  | [] => .ok []
  | a :: rest =>
    match _convert_to_ec2_instance a with
    | .error e => .error e
    | .ok i =>
      match convertInstances rest with
      | .error e => .error e
      | .ok is => .ok (i :: is)

/-- `EC2Service.list_instances`: describe with no id restriction, then walk
reservations and their instances in order, translating each.  A
`ClientError` becomes the 400 `HTTPException`; a `KeyError` raised by
translation is not a `ClientError` and propagates unchanged. -/
def list_instances {σ : Type} (c : Ec2Client σ) (s : σ) :
    Except ServiceError (List EC2Instance) × List Call :=
  ( match c.describe_instances_all s with
    | .error e => .error (providerQueryFailedList e)
    | .ok response =>
      convertInstances (response.Reservations.flatMap (fun r => r.Instances)),
    [Call.describeAll] )

/-- `EC2Service.start_instance`: one `start_instances([id])` call, then
`get_instance(id)` against the resulting provider state.  A `ClientError`
from the mutating call becomes the 400 `HTTPException`; errors raised by
`get_instance` are not `ClientError`s and propagate unchanged. -/
def start_instance {σ : Type} (c : Ec2Client σ) (s : σ) (instance_id : String) :
    Except ServiceError EC2Instance × List Call :=
  match c.start_instances s [instance_id] with
  | .error e =>
      (.error (.httpException 400
        ("Failed to start instance " ++ instance_id ++ ": " ++ e.msg)),
       [Call.start [instance_id]])
  | .ok s' =>
      let g := get_instance c s' instance_id
      (g.1, Call.start [instance_id] :: g.2)

/-- `EC2Service.stop_instance`: one `stop_instances([id])` call, then
`get_instance(id)` against the resulting provider state. -/
def stop_instance {σ : Type} (c : Ec2Client σ) (s : σ) (instance_id : String) :
    Except ServiceError EC2Instance × List Call :=
  match c.stop_instances s [instance_id] with
  | .error e =>
      (.error (.httpException 400
        ("Failed to stop instance " ++ instance_id ++ ": " ++ e.msg)),
       [Call.stop [instance_id]])
  | .ok s' =>
      let g := get_instance c s' instance_id
      (g.1, Call.stop [instance_id] :: g.2)

/-- `EC2Service.terminate_instance`: one `terminate_instances([id])` call,
then `get_instance(id)` against the resulting provider state. -/
def terminate_instance {σ : Type} (c : Ec2Client σ) (s : σ) (instance_id : String) :
    Except ServiceError EC2Instance × List Call :=
  match c.terminate_instances s [instance_id] with
  | .error e =>
      (.error (.httpException 400
        ("Failed to terminate instance " ++ instance_id ++ ": " ++ e.msg)),
       [Call.terminate [instance_id]])
  | .ok s' =>
      let g := get_instance c s' instance_id
      (g.1, Call.terminate [instance_id] :: g.2)

/-- Python truthiness of an `Optional[str]` query parameter: `None` and the
empty string are falsy. -/
def pyTruthy : Option String → Bool
  | none => false
  | some s => !(s == "")

/-- The filter block of the `GET /` route handler (`app/routers/ec2.py`
`list_instances`): each filter is applied only when its query parameter is
truthy, by exact `==` comparison against the canonical field. -/
def list_instances_route (environment instance_type : Option String)
    (instances : List EC2Instance) : List EC2Instance :=
  let instances :=
    if pyTruthy environment then
      instances.filter (fun i => i.environment == some (environment.getD ""))
    else instances
  let instances :=
    if pyTruthy instance_type then
      instances.filter (fun i => i.instance_type == instance_type.getD "")
    else instances
  instances

/-- First-match lookup in a Python-dict association list (Nat values). -/
def lookupNat : List (String × Nat) → String → Option Nat
  | [], _ => none
  | (k', v) :: rest, k => if k' = k then some v else lookupNat rest k

/-- Python `d[k] = d.get(k, 0) + 1` on an association list: increment the
entry in place if the key is present, append `(k, 1)` otherwise. -/
def dictIncr : List (String × Nat) → String → List (String × Nat)
  | [], k => [(k, 1)]
  | (k', v) :: rest, k =>
      if k' = k then (k', v + 1) :: rest else (k', v) :: dictIncr rest k

/-- The accumulation loop of `get_status_summary`:
`status_count[instance.state] = status_count.get(instance.state, 0) + 1`
over the instances in order, starting from the empty dict. -/
def status_count (instances : List EC2Instance) : List (String × Nat) :=
  instances.foldl (fun d i => dictIncr d i.state) []

/-- Response body of `GET /status/summary` (the wall-clock `timestamp`
field is omitted from the model). -/
structure StatusSummary where
  total_instances : Nat
  status_breakdown : List (String × Nat)
deriving DecidableEq

/-- The `GET /status/summary` route handler: list all instances via the
service, then count instances per `state`; a failure of `list_instances`
propagates. -/
def get_status_summary {σ : Type} (c : Ec2Client σ) (s : σ) :
    Except ServiceError StatusSummary × List Call :=
  match list_instances c s with
  | (.error e, tr) => (.error e, tr)
  | (.ok instances, tr) =>
      (.ok { total_instances := instances.length
             status_breakdown := status_count instances }, tr)

/-- The `POST /.../tags` route handler `update_instance_tags`: it raises
the 501 `HTTPException` unconditionally and never touches the service or
the provider client. -/
def update_instance_tags (instance_id : String) (tags : List (String × String)) :
    Except ServiceError EC2Instance × List Call :=
  (.error (.httpException 501 "Tag update functionality not implemented yet"), [])

/-- A provider record is missing a required field when one of the keys read
with `d[key]` by the translator is absent. -/
def missingRequired (a : AwsInstance) : Prop :=
  a.InstanceId = none ∨ a.InstanceType = none ∨ a.State = none ∨
    (∃ st, a.State = some st ∧ st.Name = none) ∨ a.LaunchTime = none

section DictLemmas

lemma lookupStr_dictSet (d : List (String × String)) (kk v k : String) :
    lookupStr (dictSet d kk v) k =
      if kk = k then some v else lookupStr d k := by
  induction d with
  | nil => simp [dictSet, lookupStr]
  | cons p rest ih =>
    obtain ⟨k0, v0⟩ := p
    by_cases h0 : k0 = kk
    · subst h0
      by_cases hk : k0 = k <;> simp [dictSet, lookupStr, hk]
    · by_cases hk : k0 = k
      · subst hk
        have hkk : ¬kk = k0 := fun h => h0 h.symm
        simp [dictSet, lookupStr, h0, hkk]
      · simp [dictSet, lookupStr, h0, hk, ih]

lemma foldl_dictSet_lookup (ts : List Tag) (acc : List (String × String))
    (k : String) :
    lookupStr (ts.foldl (fun d t => dictSet d t.Key t.Value) acc) k =
      match ts.reverse.find? (fun t => t.Key == k) with
      | some t => some t.Value
      | none => lookupStr acc k := by
  induction ts generalizing acc with
  | nil => simp
  | cons t ts ih =>
    simp only [List.foldl_cons, List.reverse_cons, List.find?_append]
    rw [ih]
    cases hfind : ts.reverse.find? (fun t => t.Key == k) with
    | some u => simp
    | none =>
      rw [lookupStr_dictSet]
      by_cases hk : t.Key = k
      · simp [List.find?, hk]
      · have hb : (t.Key == k) = false := beq_eq_false_iff_ne.mpr hk
        simp [List.find?, hb, hk]

lemma lookup_tags_dict (ts : List Tag) (k : String) :
    lookupStr (tags_dict ts) k =
      (ts.reverse.find? (fun t => t.Key == k)).map (fun t => t.Value) := by
  rw [tags_dict, foldl_dictSet_lookup]
  cases ts.reverse.find? (fun t => t.Key == k) <;> simp [lookupStr]

lemma find?_eq_none_of_all_ne {ts : List Tag} {k : String}
    (h : ts.all (fun t => !(t.Key == k)) = true) :
    ts.find? (fun t => t.Key == k) = none := by
  induction ts with
  | nil => rfl
  | cons t ts ih =>
    simp only [List.all_cons, Bool.and_eq_true, Bool.not_eq_true'] at h
    simp [List.find?, h.1, ih h.2]

lemma lookupNat_dictIncr (d : List (String × Nat)) (kk k : String) :
    lookupNat (dictIncr d kk) k =
      if kk = k then some ((lookupNat d k).getD 0 + 1) else lookupNat d k := by
  induction d with
  | nil => simp [dictIncr, lookupNat]
  | cons p rest ih =>
    obtain ⟨k0, v0⟩ := p
    by_cases h0 : k0 = kk
    · subst h0
      by_cases hk : k0 = k <;> simp [dictIncr, lookupNat, hk]
    · by_cases hk : k0 = k
      · subst hk
        have hkk : ¬kk = k0 := fun h => h0 h.symm
        simp [dictIncr, lookupNat, h0, hkk]
      · simp [dictIncr, lookupNat, h0, hk, ih]

lemma foldl_dictIncr_lookup (xs : List EC2Instance) (acc : List (String × Nat))
    (k : String) :
    lookupNat (xs.foldl (fun d i => dictIncr d i.state) acc) k =
      if xs.countP (fun i => i.state == k) = 0 then lookupNat acc k
      else some ((lookupNat acc k).getD 0 + xs.countP (fun i => i.state == k)) := by
  induction xs generalizing acc with
  | nil => simp
  | cons x xs ih =>
    simp only [List.foldl_cons, List.countP_cons]
    rw [ih, lookupNat_dictIncr]
    by_cases hx : x.state = k
    · simp only [hx, beq_self_eq_true, if_true, if_pos rfl]
      by_cases hc : xs.countP (fun i => i.state == k) = 0
      · simp [hc]
      · simp only [hc, if_false, Nat.add_eq_zero, and_false, if_false,
          Option.getD_some]
        congr 1
        omega
    · have hbeq : (x.state == k) = false := by simp [hx]
      simp [hbeq, hx]

lemma lookupNat_status_count (xs : List EC2Instance) (k : String) :
    lookupNat (status_count xs) k =
      if xs.countP (fun i => i.state == k) = 0 then none
      else some (xs.countP (fun i => i.state == k)) := by
  rw [status_count, foldl_dictIncr_lookup]
  simp [lookupNat]

end DictLemmas

section ConvertLemmas

lemma convert_ok_spec {a : AwsInstance} {i : EC2Instance}
    (h : _convert_to_ec2_instance a = .ok i) :
    a.InstanceId = some i.instance_id ∧
    a.InstanceType = some i.instance_type ∧
    a.State = some { Name := some i.state } ∧
    a.LaunchTime = some i.launch_time ∧
    i.public_ip = some (a.PublicIpAddress.getD "") ∧
    i.private_ip = some (a.PrivateIpAddress.getD "") ∧
    i.name = some (dict_get (tags_dict (a.Tags.getD [])) "Name" "") ∧
    i.environment = some (dict_get (tags_dict (a.Tags.getD [])) "Environment" "") := by
  obtain ⟨iid, ity, st, pub, priv, tg, lt⟩ := a
  cases iid with
  | none => simp [_convert_to_ec2_instance] at h
  | some iid =>
  cases ity with
  | none => simp [_convert_to_ec2_instance] at h
  | some ity =>
  cases st with
  | none => simp [_convert_to_ec2_instance] at h
  | some st =>
  obtain ⟨nm⟩ := st
  cases nm with
  | none => simp [_convert_to_ec2_instance] at h
  | some nm =>
  cases lt with
  | none => simp [_convert_to_ec2_instance] at h
  | some lt =>
  simp only [_convert_to_ec2_instance] at h
  rw [Except.ok.injEq] at h
  subst h
  simp

lemma convert_error_is_keyError {a : AwsInstance} {e : ServiceError}
    (h : _convert_to_ec2_instance a = .error e) :
    ∃ k, e = .keyError k := by
  obtain ⟨iid, ity, st, pub, priv, tg, lt⟩ := a
  cases iid with
  | none =>
    simp only [_convert_to_ec2_instance] at h
    exact ⟨"InstanceId", (Except.error.injEq _ _ ▸ h).symm⟩
  | some iid =>
  cases ity with
  | none =>
    simp only [_convert_to_ec2_instance] at h
    exact ⟨"InstanceType", (Except.error.injEq _ _ ▸ h).symm⟩
  | some ity =>
  cases st with
  | none =>
    simp only [_convert_to_ec2_instance] at h
    exact ⟨"State", (Except.error.injEq _ _ ▸ h).symm⟩
  | some st =>
  obtain ⟨nm⟩ := st
  cases nm with
  | none =>
    simp only [_convert_to_ec2_instance] at h
    exact ⟨"Name", (Except.error.injEq _ _ ▸ h).symm⟩
  | some nm =>
  cases lt with
  | none =>
    simp only [_convert_to_ec2_instance] at h
    exact ⟨"LaunchTime", (Except.error.injEq _ _ ▸ h).symm⟩
  | some lt =>
    simp [_convert_to_ec2_instance] at h

lemma missingRequired_convert_error {a : AwsInstance}
    (h : missingRequired a) :
    ∃ k, _convert_to_ec2_instance a = .error (.keyError k) := by
  cases hc : _convert_to_ec2_instance a with
  | error e =>
    obtain ⟨k, rfl⟩ := convert_error_is_keyError hc
    exact ⟨k, rfl⟩
  | ok i =>
    exfalso
    obtain ⟨h1, h2, h3, h4, -⟩ := convert_ok_spec hc
    rcases h with h | h | h | ⟨st', hst, hnm⟩ | h <;> simp_all

lemma convertInstances_ok_forall2 {l : List AwsInstance} {xs : List EC2Instance}
    (h : convertInstances l = .ok xs) :
    List.Forall₂ (fun a i => _convert_to_ec2_instance a = Except.ok i) l xs := by
  induction l generalizing xs with
  | nil =>
    simp only [convertInstances] at h
    rw [Except.ok.injEq] at h
    subst h
    exact List.Forall₂.nil
  | cons a rest ih =>
    simp only [convertInstances] at h
    cases hc : _convert_to_ec2_instance a with
    | error e => rw [hc] at h; exact absurd h (by simp)
    | ok i =>
      rw [hc] at h
      cases hr : convertInstances rest with
      | error e => rw [hr] at h; exact absurd h (by simp)
      | ok tail =>
        rw [hr] at h
        rw [Except.ok.injEq] at h
        subst h
        exact List.Forall₂.cons hc (ih hr)

lemma mem_missing_convertInstances_error {l : List AwsInstance} {a : AwsInstance}
    (hmem : a ∈ l) (hmiss : missingRequired a) :
    ∃ k, convertInstances l = .error (ServiceError.keyError k) := by
  induction l with
  | nil => cases hmem
  | cons b rest ih =>
    rcases List.mem_cons.mp hmem with rfl | hmem'
    · obtain ⟨k, hk⟩ := missingRequired_convert_error hmiss
      exact ⟨k, by simp [convertInstances, hk]⟩
    · cases hc : _convert_to_ec2_instance b with
      | error e =>
        obtain ⟨k, rfl⟩ := convert_error_is_keyError hc
        exact ⟨k, by simp [convertInstances, hc]⟩
      | ok i =>
        obtain ⟨k, hk⟩ := ih hmem'
        exact ⟨k, by simp [convertInstances, hc, hk]⟩

end ConvertLemmas

section TestDoubles

/-- Provider record of the single test instance, parametrised by its power
state. -/
def mkRec (st : String) : AwsInstance :=
  { InstanceId := some "i-1"
    InstanceType := some "t2.micro"
    State := some { Name := some st }
    PublicIpAddress := some "1.2.3.4"
    PrivateIpAddress := some "10.0.0.1"
    Tags := some [{ Key := "Name", Value := "web" }, { Key := "Environment", Value := "prod" }]
    LaunchTime := some 5 }

/-- Test double provider for lifecycle operations: the state is the power
state of the single instance `i-1`; start/stop/terminate set it to
`running`/`stopped`/`shutting-down`. -/
def lifeClient : Ec2Client String :=
  { describe_instances_all := fun st => .ok { Reservations := [{ Instances := [mkRec st] }] }
    describe_instances := fun st _ => .ok { Reservations := [{ Instances := [mkRec st] }] }
    start_instances := fun _ _ => .ok "running"
    stop_instances := fun _ _ => .ok "stopped"
    terminate_instances := fun _ _ => .ok "shutting-down" }

/-- Canonical translation of `mkRec "running"`. -/
def runningInst : EC2Instance :=
  { instance_id := "i-1"
    instance_type := "t2.micro"
    state := "running"
    public_ip := some "1.2.3.4"
    private_ip := some "10.0.0.1"
    name := some "web"
    environment := some "prod"
    launch_time := 5 }

/-- Provider record `i-1`, `t2.micro`, running, tag `Environment=prod`. -/
def rec1 : AwsInstance :=
  { InstanceId := some "i-1", InstanceType := some "t2.micro",
    State := some { Name := some "running" },
    PublicIpAddress := none, PrivateIpAddress := none,
    Tags := some [{ Key := "Environment", Value := "prod" }], LaunchTime := some 0 }

/-- Provider record `i-2`, `t2.large`, stopped, tag `Environment=dev`. -/
def rec2 : AwsInstance :=
  { InstanceId := some "i-2", InstanceType := some "t2.large",
    State := some { Name := some "stopped" },
    PublicIpAddress := none, PrivateIpAddress := none,
    Tags := some [{ Key := "Environment", Value := "dev" }], LaunchTime := some 0 }

/-- Canonical translation of `rec1`. -/
def inst1 : EC2Instance :=
  { instance_id := "i-1", instance_type := "t2.micro", state := "running",
    public_ip := some "", private_ip := some "", name := some "",
    environment := some "prod", launch_time := 0 }

/-- Canonical translation of `rec2`. -/
def inst2 : EC2Instance :=
  { instance_id := "i-2", instance_type := "t2.large", state := "stopped",
    public_ip := some "", private_ip := some "", name := some "",
    environment := some "dev", launch_time := 0 }

/-- Test double provider pre-loaded with `rec1` and `rec2` in two
reservations. -/
def listClient : Ec2Client Unit :=
  { describe_instances_all := fun _ =>
      .ok { Reservations := [{ Instances := [rec1] }, { Instances := [rec2] }] }
    describe_instances := fun _ _ => .ok { Reservations := [{ Instances := [rec1] }] }
    start_instances := fun s _ => .ok s
    stop_instances := fun s _ => .ok s
    terminate_instances := fun s _ => .ok s }

/-- Provider record lacking the `InstanceId` key. -/
def C1rec : AwsInstance :=
  { InstanceId := none, InstanceType := some "t2.micro",
    State := some { Name := some "running" },
    PublicIpAddress := none, PrivateIpAddress := none,
    Tags := some [{ Key := "Environment", Value := "prod" }], LaunchTime := some 0 }

/-- Test double provider returning the malformed record `C1rec` from both
describe calls. -/
def C1client : Ec2Client Unit :=
  { describe_instances_all := fun _ => .ok { Reservations := [{ Instances := [C1rec] }] }
    describe_instances := fun _ _ => .ok { Reservations := [{ Instances := [C1rec] }] }
    start_instances := fun s _ => .ok s
    stop_instances := fun s _ => .ok s
    terminate_instances := fun s _ => .ok s }

/-- Provider record lacking the `InstanceId` key (used for C2). -/
def noIdRec : AwsInstance :=
  { InstanceId := none, InstanceType := some "t2.nano",
    State := some { Name := some "stopped" },
    PublicIpAddress := none, PrivateIpAddress := none,
    Tags := none, LaunchTime := some 2 }

/-- Provider record whose `InstanceId` key is present but maps to the empty
string. -/
def emptyIdRec : AwsInstance :=
  { InstanceId := some "", InstanceType := some "t2.micro",
    State := some { Name := some "running" },
    PublicIpAddress := none, PrivateIpAddress := none,
    Tags := none, LaunchTime := some 0 }

/-- Canonical translation of `emptyIdRec`: an accepted `Instance` whose id
is empty. -/
def emptyIdInst : EC2Instance :=
  { instance_id := "", instance_type := "t2.micro", state := "running",
    public_ip := some "", private_ip := some "", name := some "",
    environment := some "", launch_time := 0 }

/-- Provider record with no address keys and no tags. -/
def bareRec : AwsInstance :=
  { InstanceId := some "i-9", InstanceType := some "t2.nano",
    State := some { Name := some "running" },
    PublicIpAddress := none, PrivateIpAddress := some "",
    Tags := none, LaunchTime := some 1 }

/-- Canonical translation of `bareRec`. -/
def bareInst : EC2Instance :=
  { instance_id := "i-9", instance_type := "t2.nano", state := "running",
    public_ip := some "", private_ip := some "", name := some "",
    environment := some "", launch_time := 1 }

/-- Provider record carrying two tags with the duplicate key `Name`. -/
def dupRec : AwsInstance :=
  { InstanceId := some "i-7", InstanceType := some "t2.micro",
    State := some { Name := some "running" },
    PublicIpAddress := none, PrivateIpAddress := none,
    Tags := some [{ Key := "Name", Value := "first" }, { Key := "Name", Value := "second" }],
    LaunchTime := some 3 }

/-- Canonical translation of `dupRec`: the later duplicate tag value won. -/
def dupInst : EC2Instance :=
  { instance_id := "i-7", instance_type := "t2.micro", state := "running",
    public_ip := some "", private_ip := some "", name := some "second",
    environment := some "", launch_time := 3 }

end TestDoubles

/-- C1, counterexample: listing a provider response holding a record with
no `InstanceId` key fails with the uncaught `KeyError` itself — which is
not a raised `HTTPException`, hence not the `ProviderQueryFailed` error
(`HTTPException(400, "Failed to list instances: ...")`) the claim says the
failure propagates as; `get` behaves the same way. -/
theorem C1_counterexample :
    (list_instances C1client ()).1 = Except.error (ServiceError.keyError "InstanceId") ∧
    (get_instance C1client () "i-1").1 = Except.error (ServiceError.keyError "InstanceId") ∧
    (ServiceError.keyError "InstanceId").isHTTPException = false ∧
    (providerQueryFailedList { msg := "x" }).isHTTPException = true :=
  ⟨rfl, rfl, rfl, rfl⟩

/-- C1 (amended): for every provider record missing a required field
(`InstanceId`, `InstanceType`, nested state name, `LaunchTime`),
translation fails with a `KeyError` — never producing a partially-populated
`Instance` — and when such a record is encountered during `list` or `get`,
that `KeyError` propagates to the caller uncaught (it is not swallowed, but
it is also not converted to the `ProviderQueryFailed` `HTTPException`,
which only wraps `ClientError`s from the provider call itself). -/
theorem C1_missing_field_raises_uncaught {σ : Type} (c : Ec2Client σ) (s : σ)
    (resp : DescribeResponse) (a : AwsInstance) (instance_id : String)
    (r : Reservation) (rs : List Reservation) (rest : List AwsInstance) :
    (missingRequired a →
      ∃ k, _convert_to_ec2_instance a = .error (.keyError k) ∧
        (ServiceError.keyError k).isHTTPException = false) ∧
    (c.describe_instances_all s = .ok resp →
      a ∈ resp.Reservations.flatMap (fun r => r.Instances) →
      missingRequired a →
      ∃ k, (list_instances c s).1 = .error (.keyError k) ∧
        (ServiceError.keyError k).isHTTPException = false) ∧
    (c.describe_instances s [instance_id] = .ok resp →
      resp.Reservations = r :: rs → r.Instances = a :: rest →
      missingRequired a →
      ∃ k, (get_instance c s instance_id).1 = .error (.keyError k) ∧
        (ServiceError.keyError k).isHTTPException = false) := by
  refine ⟨?_, ?_, ?_⟩
  · intro hmiss
    obtain ⟨k, hk⟩ := missingRequired_convert_error hmiss
    exact ⟨k, hk, rfl⟩
  · intro hresp hmem hmiss
    obtain ⟨k, hk⟩ := mem_missing_convertInstances_error hmem hmiss
    exact ⟨k, by simp [list_instances, hresp, hk], rfl⟩
  · intro hresp hres hinst hmiss
    obtain ⟨k, hk⟩ := missingRequired_convert_error hmiss
    exact ⟨k, by simp [get_instance, hresp, hres, hinst, hk], rfl⟩

/-- C1, witness: the amended theorem applied to the concrete malformed
record and test double. -/
theorem C1_witness :
    ∃ k, (list_instances C1client ()).1 = .error (.keyError k) ∧
      (ServiceError.keyError k).isHTTPException = false :=
  (C1_missing_field_raises_uncaught C1client ()
      { Reservations := [{ Instances := [C1rec] }] } C1rec "i-1"
      { Instances := [C1rec] } [] []).2.1 rfl (by simp) (Or.inl rfl)

/-- C2, counterexample: a provider record whose `InstanceId` key is present
but holds the empty string is accepted by the translator, and the resulting
`Instance` has an empty id — refuting "every accepted record yields a
non-empty id". -/
theorem C2_counterexample :
    _convert_to_ec2_instance emptyIdRec = Except.ok emptyIdInst ∧
    emptyIdInst.instance_id = "" :=
  ⟨rfl, rfl⟩

/-- C2 (amended): translation fails (with `KeyError("InstanceId")`)
whenever the source record lacks the identifier key; when the key is
present, its value is copied verbatim into `Instance.instance_id` — so the
id is exactly the provider's, and may be empty if the provider's is. -/
theorem C2_identifier_contract (a : AwsInstance) (i : EC2Instance) :
    (a.InstanceId = none →
      _convert_to_ec2_instance a = .error (.keyError "InstanceId")) ∧
    (_convert_to_ec2_instance a = .ok i → a.InstanceId = some i.instance_id) := by
  constructor
  · intro h
    obtain ⟨iid, ity, st, pub, priv, tg, lt⟩ := a
    simp only at h
    subst h
    rfl
  · exact fun h => (convert_ok_spec h).1

/-- C2, witness: the amended theorem applied to a concrete record with no
identifier key and to the accepted empty-id record. -/
theorem C2_witness :
    _convert_to_ec2_instance noIdRec = .error (.keyError "InstanceId") ∧
    emptyIdRec.InstanceId = some emptyIdInst.instance_id :=
  ⟨(C2_identifier_contract noIdRec emptyIdInst).1 rfl,
   (C2_identifier_contract emptyIdRec emptyIdInst).2 rfl⟩

/-- C3: the route-level filter keeps exactly the instances whose canonical
field equals (case-sensitively, via `==`) each filter value supplied
non-empty; an absent (`None`) or empty filter value imposes no constraint,
and supplying both filters yields the intersection of the two single-filter
results. -/
theorem C3_filter_conjunction_exact (environment instance_type : Option String)
    (xs : List EC2Instance) (i : EC2Instance) :
    (i ∈ list_instances_route environment instance_type xs ↔
      i ∈ xs ∧
      (pyTruthy environment = true → i.environment = some (environment.getD "")) ∧
      (pyTruthy instance_type = true → i.instance_type = instance_type.getD "")) ∧
    (i ∈ list_instances_route environment instance_type xs ↔
      i ∈ list_instances_route environment none xs ∧
      i ∈ list_instances_route none instance_type xs) := by
  have hnone : pyTruthy none = false := rfl
  by_cases henv : pyTruthy environment = true <;>
    by_cases hty : pyTruthy instance_type = true <;>
      simp only [list_instances_route, henv, hty, hnone,
        Bool.not_eq_true] at * <;>
      simp [list_instances_route, henv, hty, List.mem_filter] <;>
      tauto

/-- C3, witness: both filters supplied keep the matching instance. -/
theorem C3_witness :
    inst1 ∈ list_instances_route (some "prod") (some "t2.micro") [inst1, inst2] :=
  (C3_filter_conjunction_exact (some "prod") (some "t2.micro")
      [inst1, inst2] inst1).1.mpr
    ⟨by simp, fun _ => rfl, fun _ => rfl⟩

/-- C4: `get_instance` issues exactly the single describe call restricted
to the requested id; it fails with the `InstanceNotFound` 404 when the
provider returns zero reservations, fails with the `ProviderQueryFailed`
404 on any provider `ClientError`, and otherwise translates exactly the
first instance of the first reservation, even when more are returned. -/
theorem C4_get_instance_contract {σ : Type} (c : Ec2Client σ) (s : σ)
    (instance_id : String) (e : ClientError) (resp : DescribeResponse)
    (r : Reservation) (rs : List Reservation) (a : AwsInstance)
    (rest : List AwsInstance) :
    (get_instance c s instance_id).2 = [Call.describe [instance_id]] ∧
    (c.describe_instances s [instance_id] = .error e →
      (get_instance c s instance_id).1 = .error (providerQueryFailedGet instance_id e)) ∧
    (c.describe_instances s [instance_id] = .ok resp →
      resp.Reservations = [] →
      (get_instance c s instance_id).1 = .error (instanceNotFound instance_id)) ∧
    (c.describe_instances s [instance_id] = .ok resp →
      resp.Reservations = r :: rs → r.Instances = a :: rest →
      (get_instance c s instance_id).1 = _convert_to_ec2_instance a) := by
  refine ⟨rfl, ?_, ?_, ?_⟩
  · intro h
    simp [get_instance, h]
  · intro h hres
    simp [get_instance, h, hres]
  · intro h hres hinst
    simp [get_instance, h, hres, hinst]

/-- C4, witness: the contract applied to the lifecycle test double, whose
describe returns one reservation with one record; the result is the
translation of that record. -/
theorem C4_witness :
    (get_instance lifeClient "running" "i-1").1 =
      _convert_to_ec2_instance (mkRec "running") :=
  (C4_get_instance_contract lifeClient "running" "i-1" { msg := "x" }
      { Reservations := [{ Instances := [mkRec "running"] }] }
      { Instances := [mkRec "running"] } [] (mkRec "running") []).2.2.2
    rfl rfl rfl

/-- C5: each of `start_instance`, `stop_instance` and `terminate_instance`
issues exactly one mutating provider call (always, with no idempotency
short-circuit: a provider error from the forwarded call surfaces as the 400
`HTTPException`, whatever the current state was); on success of the
mutating call the operation returns exactly `get_instance` against the
resulting provider state, so the returned `Instance.state` is the state
name the provider reports immediately afterward. -/
theorem C5_lifecycle_contract {σ : Type} (c : Ec2Client σ) (s s' : σ)
    (instance_id : String) (e : ClientError) (resp : DescribeResponse)
    (r : Reservation) (rs : List Reservation) (a : AwsInstance)
    (rest : List AwsInstance) (i : EC2Instance) :
    ((start_instance c s instance_id).2.filter Call.isMutating
        = [Call.start [instance_id]] ∧
      (c.start_instances s [instance_id] = .ok s' →
        (start_instance c s instance_id).1 = (get_instance c s' instance_id).1) ∧
      (c.start_instances s [instance_id] = .error e →
        (start_instance c s instance_id).1 = .error (.httpException 400
          ("Failed to start instance " ++ instance_id ++ ": " ++ e.msg))) ∧
      (c.start_instances s [instance_id] = .ok s' →
        c.describe_instances s' [instance_id] = .ok resp →
        resp.Reservations = r :: rs → r.Instances = a :: rest →
        (start_instance c s instance_id).1 = .ok i →
        a.State = some { Name := some i.state })) ∧
    ((stop_instance c s instance_id).2.filter Call.isMutating
        = [Call.stop [instance_id]] ∧
      (c.stop_instances s [instance_id] = .ok s' →
        (stop_instance c s instance_id).1 = (get_instance c s' instance_id).1) ∧
      (c.stop_instances s [instance_id] = .error e →
        (stop_instance c s instance_id).1 = .error (.httpException 400
          ("Failed to stop instance " ++ instance_id ++ ": " ++ e.msg))) ∧
      (c.stop_instances s [instance_id] = .ok s' →
        c.describe_instances s' [instance_id] = .ok resp →
        resp.Reservations = r :: rs → r.Instances = a :: rest →
        (stop_instance c s instance_id).1 = .ok i →
        a.State = some { Name := some i.state })) ∧
    ((terminate_instance c s instance_id).2.filter Call.isMutating
        = [Call.terminate [instance_id]] ∧
      (c.terminate_instances s [instance_id] = .ok s' →
        (terminate_instance c s instance_id).1 = (get_instance c s' instance_id).1) ∧
      (c.terminate_instances s [instance_id] = .error e →
        (terminate_instance c s instance_id).1 = .error (.httpException 400
          ("Failed to terminate instance " ++ instance_id ++ ": " ++ e.msg))) ∧
      (c.terminate_instances s [instance_id] = .ok s' →
        c.describe_instances s' [instance_id] = .ok resp →
        resp.Reservations = r :: rs → r.Instances = a :: rest →
        (terminate_instance c s instance_id).1 = .ok i →
        a.State = some { Name := some i.state })) := by
  refine ⟨⟨?_, ?_, ?_, ?_⟩, ⟨?_, ?_, ?_, ?_⟩, ⟨?_, ?_, ?_, ?_⟩⟩
  · cases hs : c.start_instances s [instance_id] with
    | error e' => simp [start_instance, hs, Call.isMutating]
    | ok s'' => simp [start_instance, hs, get_instance, Call.isMutating]
  · intro hs
    simp [start_instance, hs]
  · intro hs
    simp [start_instance, hs]
  · intro hs hdesc hres hinst hok
    rw [(by simp [start_instance, hs] :
          (start_instance c s instance_id).1 = (get_instance c s' instance_id).1)] at hok
    rw [(by simp [get_instance, hdesc, hres, hinst] :
          (get_instance c s' instance_id).1 = _convert_to_ec2_instance a)] at hok
    exact (convert_ok_spec hok).2.2.1
  · cases hs : c.stop_instances s [instance_id] with
    | error e' => simp [stop_instance, hs, Call.isMutating]
    | ok s'' => simp [stop_instance, hs, get_instance, Call.isMutating]
  · intro hs
    simp [stop_instance, hs]
  · intro hs
    simp [stop_instance, hs]
  · intro hs hdesc hres hinst hok
    rw [(by simp [stop_instance, hs] :
          (stop_instance c s instance_id).1 = (get_instance c s' instance_id).1)] at hok
    rw [(by simp [get_instance, hdesc, hres, hinst] :
          (get_instance c s' instance_id).1 = _convert_to_ec2_instance a)] at hok
    exact (convert_ok_spec hok).2.2.1
  · cases hs : c.terminate_instances s [instance_id] with
    | error e' => simp [terminate_instance, hs, Call.isMutating]
    | ok s'' => simp [terminate_instance, hs, get_instance, Call.isMutating]
  · intro hs
    simp [terminate_instance, hs]
  · intro hs
    simp [terminate_instance, hs]
  · intro hs hdesc hres hinst hok
    rw [(by simp [terminate_instance, hs] :
          (terminate_instance c s instance_id).1 = (get_instance c s' instance_id).1)] at hok
    rw [(by simp [get_instance, hdesc, hres, hinst] :
          (get_instance c s' instance_id).1 = _convert_to_ec2_instance a)] at hok
    exact (convert_ok_spec hok).2.2.1

/-- C5, witness: against the lifecycle test double, starting the stopped
instance issues exactly the one mutating call, returns the post-read, and
the post-read record's provider-reported state name matches the returned
instance's state. -/
theorem C5_witness :
    (start_instance lifeClient "stopped" "i-1").2.filter Call.isMutating
        = [Call.start ["i-1"]] ∧
    (start_instance lifeClient "stopped" "i-1").1 =
      (get_instance lifeClient "running" "i-1").1 ∧
    (mkRec "running").State = some { Name := some runningInst.state } := by
  have h := C5_lifecycle_contract lifeClient "stopped" "running" "i-1"
    { msg := "x" } { Reservations := [{ Instances := [mkRec "running"] }] }
    { Instances := [mkRec "running"] } [] (mkRec "running") [] runningInst
  exact ⟨h.1.1, h.1.2.1 rfl, h.1.2.2.2 rfl rfl rfl rfl rfl⟩

/-- C6: a successful listing is in provider order — the k-th returned
instance is the translation of the k-th record obtained by walking the
reservations and their instances in order (stated as a pointwise
`Forall₂`) — and the route-level filters only ever produce a sublist, so the
relative order survives filtering; nothing is sorted. -/
theorem C6_order_preserved {σ : Type} (c : Ec2Client σ) (s : σ)
    (resp : DescribeResponse) (xs : List EC2Instance)
    (environment instance_type : Option String)
    (hresp : c.describe_instances_all s = .ok resp)
    (hok : (list_instances c s).1 = .ok xs) :
    List.Forall₂ (fun a i => _convert_to_ec2_instance a = Except.ok i)
      (resp.Reservations.flatMap (fun r => r.Instances)) xs ∧
    (list_instances_route environment instance_type xs).Sublist xs := by
  constructor
  · apply convertInstances_ok_forall2
    simpa [list_instances, hresp] using hok
  · have hfil : ∀ (p : EC2Instance → Bool) (l : List EC2Instance),
        (l.filter p).Sublist l := fun p l => List.filter_sublist l
    by_cases henv : pyTruthy environment = true <;>
      by_cases hty : pyTruthy instance_type = true <;>
        simp only [list_instances_route, henv, hty, Bool.not_eq_true,
          if_true, if_false] <;>
        first
        | exact (hfil _ _).trans (hfil _ _)
        | exact hfil _ _
        | exact List.Sublist.refl _

/-- C6, witness: the two-instance test double lists `[inst1, inst2]` in
reservation order, and filtering by environment keeps a sublist. -/
theorem C6_witness :
    List.Forall₂ (fun a i => _convert_to_ec2_instance a = Except.ok i)
      [rec1, rec2] [inst1, inst2] ∧
    (list_instances_route (some "prod") none [inst1, inst2]).Sublist
      [inst1, inst2] :=
  C6_order_preserved listClient ()
    { Reservations := [{ Instances := [rec1] }, { Instances := [rec2] }] }
    [inst1, inst2] (some "prod") none rfl rfl

/-- C7: for every accepted provider record, an absent or empty public or
private address key, and an absent `Name`/`Environment` tag key (or one
whose effective value is the empty string), translate to the field holding
`some ""` — the empty string, never the absent marker `none`. -/
theorem C7_optional_defaults (a : AwsInstance) (i : EC2Instance) (t1 t2 : Tag)
    (h : _convert_to_ec2_instance a = .ok i) :
    (a.PublicIpAddress = none ∨ a.PublicIpAddress = some "" →
      i.public_ip = some "") ∧
    (a.PrivateIpAddress = none ∨ a.PrivateIpAddress = some "" →
      i.private_ip = some "") ∧
    ((a.Tags.getD []).all (fun t => !(t.Key == "Name")) = true →
      i.name = some "") ∧
    ((a.Tags.getD []).all (fun t => !(t.Key == "Environment")) = true →
      i.environment = some "") ∧
    ((a.Tags.getD []).reverse.find? (fun t => t.Key == "Name") = some t1 →
      t1.Value = "" → i.name = some "") ∧
    ((a.Tags.getD []).reverse.find? (fun t => t.Key == "Environment") = some t2 →
      t2.Value = "" → i.environment = some "") ∧
    i.public_ip ≠ none ∧ i.private_ip ≠ none ∧ i.name ≠ none ∧
    i.environment ≠ none := by
  obtain ⟨-, -, -, -, hpub, hpriv, hname, henv⟩ := convert_ok_spec h
  have hrev : ∀ (k : String),
      (a.Tags.getD []).all (fun t => !(t.Key == k)) = true →
      (a.Tags.getD []).reverse.find? (fun t => t.Key == k) = none := by
    intro k hall
    apply find?_eq_none_of_all_ne
    rw [List.all_eq_true] at hall ⊢
    intro t ht
    exact hall t (List.mem_reverse.mp ht)
  refine ⟨?_, ?_, ?_, ?_, ?_, ?_, ?_, ?_, ?_, ?_⟩
  · rintro (hp | hp) <;> rw [hpub, hp] <;> rfl
  · rintro (hp | hp) <;> rw [hpriv, hp] <;> rfl
  · intro hall
    rw [hname]
    rw [dict_get, lookup_tags_dict, hrev "Name" hall]
    rfl
  · intro hall
    rw [henv]
    rw [dict_get, lookup_tags_dict, hrev "Environment" hall]
    rfl
  · intro hfind hval
    rw [hname, dict_get, lookup_tags_dict, hfind]
    simp [hval]
  · intro hfind hval
    rw [henv, dict_get, lookup_tags_dict, hfind]
    simp [hval]
  · rw [hpub]; exact Option.some_ne_none _
  · rw [hpriv]; exact Option.some_ne_none _
  · rw [hname]; exact Option.some_ne_none _
  · rw [henv]; exact Option.some_ne_none _

/-- C7, witness: a record with no public address key, an empty private
address value and no tag list translates to empty-string fields. -/
theorem C7_witness :
    bareInst.public_ip = some "" ∧ bareInst.private_ip = some "" ∧
    bareInst.name = some "" ∧ bareInst.environment = some "" := by
  have h := C7_optional_defaults bareRec bareInst
    { Key := "Name", Value := "" } { Key := "Environment", Value := "" } rfl
  exact ⟨h.1 (Or.inl rfl), h.2.1 (Or.inr rfl), h.2.2.1 rfl, h.2.2.2.1 rfl⟩

/-- C8: for every instance id and request body, the tag-update route fails
with the 501 `NotImplemented` `HTTPException` and issues no provider call
at all (its call trace is empty). -/
theorem C8_tags_not_implemented (instance_id : String)
    (tags : List (String × String)) :
    update_instance_tags instance_id tags =
      (.error (.httpException 501 "Tag update functionality not implemented yet"),
       ([] : List Call)) ∧
    (update_instance_tags instance_id tags).2.filter Call.isMutating = [] :=
  ⟨rfl, rfl⟩

/-- C9: whenever listing succeeds, the status summary reports
`total_instances` equal to the number of instances and a breakdown whose
entry for a state is exactly the number of instances in that state (absent
when the count is zero). -/
theorem C9_status_summary {σ : Type} (c : Ec2Client σ) (s : σ)
    (xs : List EC2Instance) (st : String)
    (h : (list_instances c s).1 = .ok xs) :
    (get_status_summary c s).1 =
      .ok { total_instances := xs.length, status_breakdown := status_count xs } ∧
    lookupNat (status_count xs) st =
      (if xs.countP (fun i => i.state == st) = 0 then none
       else some (xs.countP (fun i => i.state == st))) := by
  constructor
  · rcases hls : list_instances c s with ⟨res, tr⟩
    rw [hls] at h
    simp only at h
    subst h
    simp [get_status_summary, hls]
  · exact lookupNat_status_count xs st

/-- C9, witness: with the two test instances (one running, one stopped) the
summary is `total_instances = 2` with breakdown
`running ↦ 1, stopped ↦ 1`. -/
theorem C9_witness :
    (get_status_summary listClient ()).1 =
      .ok { total_instances := 2,
            status_breakdown := [("running", 1), ("stopped", 1)] } ∧
    lookupNat (status_count [inst1, inst2]) "running" = some 1 :=
  C9_status_summary listClient () [inst1, inst2] "running" rfl

/-- C10: for every accepted provider record, the `name` and `environment`
fields hold the value of the last tag in the list with key `Name` resp.
`Environment` (the first match in the reversed list) — earlier duplicates
are overwritten — defaulting to the empty string when no such tag exists. -/
theorem C10_last_duplicate_tag_wins (a : AwsInstance) (i : EC2Instance)
    (h : _convert_to_ec2_instance a = .ok i) :
    i.name = some
      ((((a.Tags.getD []).reverse.find? (fun t => t.Key == "Name")).map
        (fun t => t.Value)).getD "") ∧
    i.environment = some
      ((((a.Tags.getD []).reverse.find? (fun t => t.Key == "Environment")).map
        (fun t => t.Value)).getD "") := by
  obtain ⟨-, -, -, -, -, -, hname, henv⟩ := convert_ok_spec h
  rw [hname, henv, dict_get, dict_get, lookup_tags_dict, lookup_tags_dict]
  exact ⟨rfl, rfl⟩

/-- C10, witness: with two `Name` tags (`first` then `second`), the
translated name is the later value `second`. -/
theorem C10_witness :
    dupInst.name = some "second" ∧ dupInst.environment = some "" := by
  have h := C10_last_duplicate_tag_wins dupRec dupInst rfl
  simpa using h
